import Mathlib

/-!
Shallow embedding of the training/evaluation core of `src/train.py`
(class `ModelTrainer`): the evaluation routine `evaluate`, the
pseudo-label generator `generate_labels_for_ssl`, the step-wise learning
rate schedule, and the two driver loops `train_val_test` and
`ssl_train_val_test`.

The neural network forward pass is opaque to the core: a batch is
modelled as the list of its examples, each carrying the class scores
(`logits`) the model produces for it, the scalar cross-entropy
contribution of its unnormalised scores (`ce`, sum reduction gives one
such scalar per example), its ground-truth `target` and its dataset
`index`.  Real-valued quantities are modelled over ℚ.  A Python
`ZeroDivisionError` raised by `loss /= n_examples` is modelled by the
whole call returning `none`.
-/

namespace TrainPy

/-- One example of a batch, as consumed by `evaluate` /
`generate_labels_for_ssl` in `src/train.py`: the model's class scores
for the example (`logits`, first output of `self.model(images)`), the
per-example cross-entropy of its unnormalised scores against the target
(`ce`, an opaque nonnegative scalar produced by
`F.cross_entropy(..., reduction="sum")`), the ground-truth class
`target`, and the dataset position `index`. -/
structure Example where
  logits : List ℚ
  ce : ℚ
  target : ℕ
  index : ℕ
deriving DecidableEq

/-- A batch of the stream: `(images, targets, indices)` in the source,
with the model outputs attached per example. -/
structure Batch where
  examples : List Example
deriving DecidableEq

/-- Index of the first maximal entry of a score list, starting the scan
with current best value `bv` at current best position `best`, where `i`
is the position of the head of the remaining list. -/
def argmaxAux : List ℚ → ℕ → ℚ → ℕ → ℕ
  | [], _, _, best => best
  | x :: xs, i, bv, best =>
      if bv < x then argmaxAux xs (i + 1) x i else argmaxAux xs (i + 1) bv best

/-- `pred = logits.max(1, keepdim=False)[1]` (src/train.py:202, 265):
the arg-max position of a score vector (0 on an empty vector). -/
def argmax : List ℚ → ℕ
  | [] => 0
  | x :: xs => argmaxAux xs 1 x 0

/-- The predicted label of one example: arg-max of its class scores. -/
def pred (e : Example) : ℕ := argmax e.logits

/-- Python truthiness of the `n_batches` argument in
`if n_batches and (batch_idx >= n_batches)` (src/train.py:205): the cap
is active iff `n_batches` is neither `None` nor `0`. -/
def capActive : Option ℕ → Bool
  | none => false
  | some k => k != 0

/-- The numeric value of an active cap. -/
def capVal : Option ℕ → ℕ
  | none => 0
  | some k => k

/-- The prefix of the stream consumed by the loop
`for batch_idx, batch in enumerate(loader): ...;
if n_batches and (batch_idx >= n_batches): break` with an active cap:
the batch at position `idx` is processed, and the loop breaks right
after it when `cap ≤ idx`. -/
def consumedBatchesAux (cap : ℕ) : ℕ → List Batch → List Batch
  | _, [] => []
  | idx, b :: rest =>
      if cap ≤ idx then [b] else b :: consumedBatchesAux cap (idx + 1) rest

/-- The batches an evaluation/generation call consumes from its stream
(src/train.py:195-206, 258-273): the whole stream when the cap is
inactive, otherwise the prefix up to and including the first batch whose
0-based position reaches the cap. -/
def consumedBatches (nBatches : Option ℕ) (stream : List Batch) : List Batch :=
  if capActive nBatches then consumedBatchesAux (capVal nBatches) 0 stream
  else stream

/-- Running metric state of one evaluation/generation pass:
`loss`, `correct`, `n_examples` (src/train.py:186-188, 249-251). -/
structure EvalAccum where
  loss : ℚ
  correct : ℕ
  nExamples : ℕ
deriving DecidableEq

/-- Effect of one loop iteration on the running metrics
(src/train.py:200-204): add the sum-reduced cross-entropy of the batch,
count the examples whose arg-max prediction equals the target, and add
the batch size to `n_examples`. -/
def processBatch (a : EvalAccum) (b : Batch) : EvalAccum :=
  { loss := a.loss + (b.examples.map (·.ce)).sum
    correct := a.correct + (b.examples.filter (fun e => pred e == e.target)).length
    nExamples := a.nExamples + b.examples.length }

/-- The running metrics after the evaluation loop over the consumed
prefix of the stream. -/
def evalAccumOf (nBatches : Option ℕ) (stream : List Batch) : EvalAccum :=
  (consumedBatches nBatches stream).foldl processBatch ⟨0, 0, 0⟩

/-- The pair `self.best_test_accuracy` / `self.best_test_epoch`
(src/train.py:48-49).  The epoch is an `Option ℕ` because line 213 can
store the Python `None` passed as the `epoch` argument. -/
structure BestRecord where
  best_test_accuracy : ℚ
  best_test_epoch : Option ℕ
deriving DecidableEq

/-- The `split` argument of `evaluate`: the two values the source
dispatches on (src/train.py:190-193). -/
inductive Split
  | Val
  | Test
deriving DecidableEq

/-- Best-record mutation of one `evaluate` call, given the accuracy the
call computed (src/train.py:211-220): if the split is Test and
`acc >= self.best_test_accuracy`, store `(acc, epoch)` (the tie case
`=` also updates, so the later epoch wins); then, if `verbose` and the
`epoch` argument was `None`, reset `self.best_test_epoch` to 0.
`utils.convert_for_print` on line 212 is modelled from the spec as the
identity on values: `utils.py` is not under src/, and the spec's
BestRecord stores the accuracy itself. -/
def updateBest (split : Split) (epoch : Option ℕ) (verbose : Bool) (acc : ℚ)
    (best : BestRecord) : BestRecord :=
  let best1 :=
    if split = Split.Test ∧ best.best_test_accuracy ≤ acc then
      { best_test_accuracy := acc, best_test_epoch := epoch }
    else best
  if verbose = true ∧ epoch = none then
    { best1 with best_test_epoch := some 0 }
  else best1

/-- `ModelTrainer.evaluate` (src/train.py:181-243) on the given stream:
accumulate metrics over the consumed batches, divide by the example
count (a `ZeroDivisionError` — modelled as `none` — when no example was
observed), update the best record, and return
`(mean loss, accuracy percent)` together with the new best record. -/
def evaluate (split : Split) (epoch : Option ℕ) (verbose : Bool)
    (nBatches : Option ℕ) (stream : List Batch) (best : BestRecord) :
    Option ((ℚ × ℚ) × BestRecord) :=
  let a := evalAccumOf nBatches stream
  if a.nExamples = 0 then none
  else
    let meanLoss := a.loss / (a.nExamples : ℚ)
    let acc : ℚ := 100 * (a.correct : ℚ) / (a.nExamples : ℚ)
    some ((meanLoss, acc), updateBest split epoch verbose acc best)

/-- All examples of a list of batches, in batch order then within-batch
order. -/
def exsOf : List Batch → List Example
  | [] => []
  | b :: bs => b.examples ++ exsOf bs

/-- Effect of one loop iteration of `generate_labels_for_ssl`
(src/train.py:258-273): the metric update of `processBatch` plus
`predictions_indices.extend(indices.tolist())` and
`predictions_labels.extend(pred.tolist())`. -/
def genStep (st : EvalAccum × List ℕ × List ℕ) (b : Batch) :
    EvalAccum × List ℕ × List ℕ :=
  (processBatch st.1 b,
   st.2.1 ++ b.examples.map (·.index),
   st.2.2 ++ b.examples.map pred)

/-- `ModelTrainer.generate_labels_for_ssl` (src/train.py:245-297) on the
given unlabeled stream: run the same inference loop as `evaluate` while
extending the two parallel prediction sequences, then divide the
accumulated loss by the example count (`ZeroDivisionError`, i.e. `none`,
when no example was observed — the exception is raised before the
function returns its predictions), and return `(indices, labels)`. -/
def generate_labels_for_ssl (nBatches : Option ℕ) (stream : List Batch) :
    Option (List ℕ × List ℕ) :=
  let st := (consumedBatches nBatches stream).foldl genStep (⟨0, 0, 0⟩, [], [])
  if st.1.nExamples = 0 then none else some st.2

/-- Embeds `torch.optim.lr_scheduler.MultiStepLR` (constructed at
src/train.py:70-74), an external library scheduler with documented
semantics: each `step()` call increments the epoch counter, and when the
counter reaches a milestone the learning rate is multiplied by `gamma`.
Closed form: after `steps` calls the rate is
`init * gamma ^ |{m in milestones, m ≤ steps}|`. -/
def multiStepLR (milestones : List ℕ) (gamma init : ℚ) (steps : ℕ) : ℚ :=
  init * gamma ^ (milestones.filter (fun m => m ≤ steps)).length

/-- The learning rate in effect during epoch `e` (1-based) of a run of
`train_val_test` / `ssl_train_val_test`: the driver calls
`self.lr_scheduler.step()` once at the end of every epoch
(src/train.py:305-306, 348-349), so during epoch `e` the scheduler has
been stepped `e - 1` times. -/
def lrAtEpoch (milestones : List ℕ) (gamma init : ℚ) (e : ℕ) : ℚ :=
  multiStepLR milestones gamma init (e - 1)

/-- Observable event record of a supervised run of `train_val_test`
(src/train.py:299-328): which epochs ran `train_val`, which ran the Test
evaluation, which stepped the LR scheduler, and at which epochs a
checkpoint was written. -/
structure SuperState where
  trained : List ℕ
  tested : List ℕ
  lr_steps : List ℕ
  checkpoints : List ℕ
deriving DecidableEq

/-- One iteration of the epoch loop of `train_val_test`
(src/train.py:302-316): `train_val(epoch)`, `evaluate("Test", ...)`,
`lr_scheduler.step()` when configured, and a checkpoint write when
`epoch % checkpoint_save_interval == 0`. -/
def superEpoch (lr_scheduler : Bool) (interval e : ℕ) (s : SuperState) :
    SuperState :=
  let s1 := { s with trained := s.trained ++ [e] }
  let s2 := { s1 with tested := s1.tested ++ [e] }
  let s3 := if lr_scheduler then { s2 with lr_steps := s2.lr_steps ++ [e] } else s2
  if e % interval = 0 then { s3 with checkpoints := s3.checkpoints ++ [e] } else s3

/-- `ModelTrainer.train_val_test` (src/train.py:299-328) as its event
record: the epoch loop runs for `epoch in range(1, epochs + 1)`. -/
def train_val_test (lr_scheduler : Bool) (interval epochs : ℕ) : SuperState :=
  (List.range' 1 epochs).foldl (fun s e => superEpoch lr_scheduler interval e s)
    ⟨[], [], [], []⟩

/-- Driver state of `ssl_train_val_test` (src/train.py:330-371):
the dataloader's `stop_label_generation` flag, the PredictionSet held by
the driver (`predictions_indices`, `predictions_labels`), and the event
record (epochs at which `ssl_init_epoch` was invoked, at which
`generate_labels_for_ssl` was invoked, which epochs trained, ran the
Test evaluation, stepped the LR scheduler, and checkpointed). -/
structure SSLState where
  stop_label_generation : Bool
  predictions_indices : List ℕ
  predictions_labels : List ℕ
  rebuilds : List ℕ
  gens : List ℕ
  trained : List ℕ
  tested : List ℕ
  lr_steps : List ℕ
  checkpoints : List ℕ
deriving DecidableEq

/-- Modelled from the spec: the data-loading collaborator
(`dataloader.py`, not under src/).  It owns the `stop_label_generation`
flag, which the driver only reads; the spec says the flag is mutated by
the collaborator (e.g. once the unlabeled pool is exhausted), which can
only happen inside the collaborator calls the driver makes, i.e. during
`ssl_init_epoch(indices, labels)`.  `stopAfterRebuild e inds labels`
gives the flag value after the rebuild call of epoch `e`. -/
structure DataloaderModel where
  stopAfterRebuild : ℕ → List ℕ → List ℕ → Bool

/-- One iteration of the epoch loop of `ssl_train_val_test`
(src/train.py:336-359): when the flag is not set, rebuild the labeled
set from the current PredictionSet (`ssl_init_epoch`); run
`train_val(epoch)` and `evaluate("Test", epoch, verbose=True)`; when the
flag is (still) not set, replace the PredictionSet with the result of
`generate_labels_for_ssl(epoch, n_batches=4)` (abstracted by the oracle
`gen`, since the driver only stores its value); step the LR scheduler
when configured; checkpoint when `epoch % checkpoint_save_interval == 0`.
Note the source re-reads the flag before the generation step, so a flag
set during this epoch's rebuild already suppresses this epoch's
generation. -/
def sslEpoch (dl : DataloaderModel) (lr_scheduler : Bool) (interval : ℕ)
    (gen : ℕ → List ℕ × List ℕ) (e : ℕ) (s : SSLState) : SSLState :=
  let s1 :=
    if s.stop_label_generation then s
    else
      { s with
        rebuilds := s.rebuilds ++ [e]
        stop_label_generation :=
          dl.stopAfterRebuild e s.predictions_indices s.predictions_labels }
  let s2 := { s1 with trained := s1.trained ++ [e], tested := s1.tested ++ [e] }
  let s3 :=
    if s2.stop_label_generation then s2
    else
      { s2 with
        predictions_indices := (gen e).1
        predictions_labels := (gen e).2
        gens := s2.gens ++ [e] }
  let s4 := if lr_scheduler then { s3 with lr_steps := s3.lr_steps ++ [e] } else s3
  if e % interval = 0 then { s4 with checkpoints := s4.checkpoints ++ [e] } else s4

/-- The epoch loop of `ssl_train_val_test` run over the epoch list `es`
starting from state `s`. -/
def sslRunFrom (dl : DataloaderModel) (lr_scheduler : Bool) (interval : ℕ)
    (gen : ℕ → List ℕ × List ℕ) (es : List ℕ) (s : SSLState) : SSLState :=
  es.foldl (fun st e => sslEpoch dl lr_scheduler interval gen e st) s

/-- `ModelTrainer.ssl_train_val_test` (src/train.py:330-371) as its
event record: `predictions_indices, predictions_labels = [], []`,
`stop_label_generation = False`, then the epoch loop for
`epoch in range(1, epochs + 1)`. -/
def ssl_train_val_test (dl : DataloaderModel) (lr_scheduler : Bool)
    (interval epochs : ℕ) (gen : ℕ → List ℕ × List ℕ) : SSLState :=
  sslRunFrom dl lr_scheduler interval gen (List.range' 1 epochs)
    ⟨false, [], [], [], [], [], [], [], []⟩

/-! Concrete fixtures used by counterexamples and witnesses. -/

/-- An example the model classifies correctly: scores `[1, 0]` give
arg-max 0 = target, with cross-entropy contribution 1. -/
def exC (i : ℕ) : Example := ⟨[1, 0], 1, 0, i⟩

/-- An example the model classifies wrongly: scores `[0, 1]` give
arg-max 1 ≠ target 0, with cross-entropy contribution 1. -/
def exW (i : ℕ) : Example := ⟨[0, 1], 1, 0, i⟩

/-- A single one-example batch. -/
def oneBatchFix : Batch := ⟨[exC 0]⟩

/-- A batch with no examples. -/
def emptyBatchFix : Batch := ⟨[]⟩

/-- A stream of three one-example batches. -/
def stream3Fix : List Batch := [⟨[exC 0]⟩, ⟨[exC 1]⟩, ⟨[exC 2]⟩]

/-- Batch 1 of the metrics scenario: 4 examples, all predicted
correctly. -/
def b1Fix : Batch := ⟨[exC 0, exC 1, exC 2, exC 3]⟩

/-- Batch 2 of the metrics scenario: 4 examples, 2 predicted
correctly. -/
def b2Fix : Batch := ⟨[exC 4, exC 5, exW 6, exW 7]⟩

/-- The two-batch stream of the metrics scenario. -/
def c8StreamFix : List Batch := [b1Fix, b2Fix]

/-- A dataloader model that never raises the stop flag. -/
def dlFix : DataloaderModel := ⟨fun _ _ _ => false⟩

/-- A trivial pseudo-label generation oracle. -/
def genFix : ℕ → List ℕ × List ℕ := fun e => ([e], [e])

/-- A mid-run driver state whose stop flag is already set. -/
def sslFrozenFix : SSLState := ⟨true, [7], [8], [1], [1], [1], [1], [1], []⟩

/-! Helper lemmas. -/

/-- Length of the consumed prefix under an active cap: starting at
position `idx ≤ cap` on a long enough list, exactly `cap + 1 - idx`
batches are consumed. -/
theorem consumedBatchesAux_length (cap : ℕ) :
    ∀ (l : List Batch) (idx : ℕ), idx ≤ cap → cap + 1 - idx ≤ l.length →
      (consumedBatchesAux cap idx l).length = cap + 1 - idx := by
  intro l
  induction l with
  | nil =>
      intro idx h1 h2
      simp only [List.length_nil] at h2
      omega
  | cons b rest ih =>
      intro idx h1 h2
      by_cases hc : cap ≤ idx
      · have hidx : idx = cap := Nat.le_antisymm h1 hc
        subst hidx
        simp [consumedBatchesAux]
      · simp only [consumedBatchesAux, if_neg hc, List.length_cons]
        have hlen : cap + 1 - (idx + 1) ≤ rest.length := by
          simp only [List.length_cons] at h2
          omega
        rw [ih (idx + 1) (by omega) hlen]
        omega

/-- One epoch of the supervised driver, as an explicit update of the
event record. -/
theorem superEpoch_eq (lrs : Bool) (interval e : ℕ) (s : SuperState) :
    superEpoch lrs interval e s =
      { s with
        trained := s.trained ++ [e]
        tested := s.tested ++ [e]
        lr_steps := s.lr_steps ++ (if lrs then [e] else [])
        checkpoints :=
          s.checkpoints ++ (if e % interval = 0 then [e] else []) } := by
  unfold superEpoch
  by_cases hl : lrs <;> by_cases hm : e % interval = 0 <;> simp [hl, hm]

/-- The supervised epoch loop over an epoch list, as an explicit update
of the event record. -/
theorem superRun_events (lrs : Bool) (interval : ℕ) :
    ∀ (es : List ℕ) (s : SuperState),
      es.foldl (fun st e => superEpoch lrs interval e st) s =
        { s with
          trained := s.trained ++ es
          tested := s.tested ++ es
          lr_steps := s.lr_steps ++ (if lrs then es else [])
          checkpoints :=
            s.checkpoints ++ es.filter (fun e => e % interval = 0) } := by
  intro es
  induction es with
  | nil => intro s; simp
  | cons e rest ih =>
      intro s
      rw [List.foldl_cons, superEpoch_eq, ih]
      by_cases hl : lrs <;> by_cases hm : e % interval = 0 <;>
        simp [hl, hm, List.filter_cons]

/-- One epoch of the semi-supervised driver from a state whose stop
flag is set: no rebuild, no generation, the PredictionSet untouched;
training, Test evaluation, LR stepping and checkpointing happen as in
the supervised driver. -/
theorem sslEpoch_frozen (dl : DataloaderModel) (lrs : Bool) (interval : ℕ)
    (gen : ℕ → List ℕ × List ℕ) (e : ℕ) (s : SSLState)
    (h : s.stop_label_generation = true) :
    sslEpoch dl lrs interval gen e s =
      { s with
        trained := s.trained ++ [e]
        tested := s.tested ++ [e]
        lr_steps := s.lr_steps ++ (if lrs then [e] else [])
        checkpoints :=
          s.checkpoints ++ (if e % interval = 0 then [e] else []) } := by
  unfold sslEpoch
  by_cases hl : lrs <;> by_cases hm : e % interval = 0 <;> simp [h, hl, hm]

/-- The combined metric-and-prediction fold of
`generate_labels_for_ssl`, split into the metric fold and the two
parallel prediction sequences. -/
theorem genFold_eq (bs : List Batch) :
    ∀ (a : EvalAccum) (i0 l0 : List ℕ),
      bs.foldl genStep (a, i0, l0) =
        (bs.foldl processBatch a,
         i0 ++ (exsOf bs).map (·.index),
         l0 ++ (exsOf bs).map pred) := by
  induction bs with
  | nil => intro a i0 l0; simp [exsOf]
  | cons b rest ih =>
      intro a i0 l0
      rw [List.foldl_cons, List.foldl_cons]
      show rest.foldl genStep (genStep (a, i0, l0) b) = _
      rw [genStep, ih]
      simp [exsOf, List.map_append]

/-- Elimination form for a successful `evaluate` call: the consumed
prefix was non-empty, the returned accuracy is
`100 * correct / n_examples`, and the new best record is the
`updateBest` of the old one at that accuracy. -/
theorem evaluate_eq_some (split : Split) (epoch : Option ℕ) (verbose : Bool)
    (nB : Option ℕ) (stream : List Batch) (best : BestRecord)
    (r : ℚ × ℚ) (best' : BestRecord)
    (h : evaluate split epoch verbose nB stream best = some (r, best')) :
    (evalAccumOf nB stream).nExamples ≠ 0 ∧
    r.2 = 100 * ((evalAccumOf nB stream).correct : ℚ) /
      ((evalAccumOf nB stream).nExamples : ℚ) ∧
    best' = updateBest split epoch verbose r.2 best := by
  obtain ⟨r1, r2⟩ := r
  simp only [evaluate] at h
  by_cases h0 : (evalAccumOf nB stream).nExamples = 0
  · rw [if_pos h0] at h
    exact absurd h (by simp)
  · rw [if_neg h0] at h
    simp only [Option.some.injEq, Prod.mk.injEq] at h
    obtain ⟨⟨hl, ha⟩, hb⟩ := h
    subst ha
    exact ⟨h0, rfl, hb.symm⟩

/-- `updateBest` on the Test split with a concrete epoch number: the
record becomes `(acc, epoch)` exactly when `acc` ties or beats the
stored best. -/
theorem updateBest_epoch_some (e : ℕ) (verbose : Bool) (acc : ℚ)
    (best : BestRecord) :
    updateBest Split.Test (some e) verbose acc best =
      if best.best_test_accuracy ≤ acc then ⟨acc, some e⟩ else best := by
  unfold updateBest
  simp

/-- `updateBest` with `verbose = false`: the same ties-or-better update
as with `verbose = true`, and no reset of the epoch field. -/
theorem updateBest_not_verbose (split : Split) (epoch : Option ℕ) (acc : ℚ)
    (best : BestRecord) :
    updateBest split epoch false acc best =
      if split = Split.Test ∧ best.best_test_accuracy ≤ acc then
        ⟨acc, epoch⟩
      else best := by
  unfold updateBest
  simp

/-- `updateBest` with `verbose = true` and no epoch supplied always
leaves `best_test_epoch = 0`. -/
theorem updateBest_verbose_none (split : Split) (acc : ℚ)
    (best : BestRecord) :
    (updateBest split none true acc best).best_test_epoch = some 0 := by
  unfold updateBest
  simp

/-! Claims. -/

/-- C1 counterexample: with cap `n_batches = 1` on a 3-batch stream the
evaluation loop consumes 2 batches, not 1 — the break test
`batch_idx >= n_batches` runs only after the batch at position
`batch_idx` has been processed, so positions 0 and 1 are both
consumed. -/
theorem consumed_cap_C1_counterexample :
    (consumedBatches (some 1) stream3Fix).length = 2 ∧
    ¬ (consumedBatches (some 1) stream3Fix).length = 1 := by
  decide

/-- C1 amended: for every evaluation call with a set cap
`n_batches = k` (k > 0) on a stream of at least k + 1 batches, the
Evaluator consumes exactly k + 1 batches (positions 0..k) from the
stream before finalizing its metrics. -/
theorem consumed_cap_C1_amended (k : ℕ) (stream : List Batch)
    (h1 : k ≠ 0) (h2 : k + 1 ≤ stream.length) :
    (consumedBatches (some k) stream).length = k + 1 := by
  have hcap : capActive (some k) = true := by simp [capActive, h1]
  unfold consumedBatches
  rw [if_pos hcap]
  have hlen := consumedBatchesAux_length k stream 0 (Nat.zero_le k) (by omega)
  simpa [capVal] using hlen

/-- Witness for the amended C1 at k = 2 on the 3-batch stream. -/
theorem consumed_cap_C1_amended_witness :
    2 ≠ 0 ∧ 2 + 1 ≤ stream3Fix.length ∧
    (consumedBatches (some 2) stream3Fix).length = 2 + 1 :=
  ⟨by decide, by decide,
   consumed_cap_C1_amended 2 stream3Fix (by decide) (by decide)⟩

/-- C2: once the dataloader's stop_label_generation flag is true at the
start of an epoch of `ssl_train_val_test`, every remaining epoch
neither invokes the rebuild `ssl_init_epoch` nor regenerates the
PredictionSet — the indices/labels pair held by the driver is unchanged
— while training, Test evaluation, LR stepping and checkpointing
continue for every remaining epoch of the configured budget. -/
theorem ssl_freeze_C2 (dl : DataloaderModel) (lrs : Bool) (interval : ℕ)
    (gen : ℕ → List ℕ × List ℕ) (es : List ℕ) (s : SSLState)
    (h : s.stop_label_generation = true) :
    sslRunFrom dl lrs interval gen es s =
      { s with
        trained := s.trained ++ es
        tested := s.tested ++ es
        lr_steps := s.lr_steps ++ (if lrs then es else [])
        checkpoints :=
          s.checkpoints ++ es.filter (fun e => e % interval = 0) } := by
  revert s
  induction es with
  | nil => intro s h; simp [sslRunFrom]
  | cons e rest ih =>
      intro s h
      have h2 : (sslEpoch dl lrs interval gen e s).stop_label_generation =
          true := by
        rw [sslEpoch_frozen dl lrs interval gen e s h]
        exact h
      have hrun : sslRunFrom dl lrs interval gen (e :: rest) s =
          sslRunFrom dl lrs interval gen rest
            (sslEpoch dl lrs interval gen e s) := rfl
      rw [hrun, ih _ h2, sslEpoch_frozen dl lrs interval gen e s h]
      by_cases hl : lrs <;> by_cases hm : e % interval = 0 <;>
        simp [hl, hm, List.filter_cons]

/-- Witness for C2 at a concrete frozen mid-run state and the remaining
epochs [2, 3]. -/
theorem ssl_freeze_C2_witness :
    sslRunFrom dlFix true 2 genFix [2, 3] sslFrozenFix =
      { sslFrozenFix with
        trained := sslFrozenFix.trained ++ [2, 3]
        tested := sslFrozenFix.tested ++ [2, 3]
        lr_steps := sslFrozenFix.lr_steps ++ (if true then [2, 3] else [])
        checkpoints := sslFrozenFix.checkpoints ++
          [2, 3].filter (fun e => e % 2 = 0) } :=
  ssl_freeze_C2 dlFix true 2 genFix [2, 3] sslFrozenFix rfl

/-- C3: across successive evaluate calls on the Test stream with an
epoch number, best_test_accuracy never decreases, and the record is
updated exactly when the new accuracy ties or beats the stored best
(ties-or-better, so on a tie the later epoch becomes
best_test_epoch). -/
theorem evaluate_best_C3 (e : ℕ) (verbose : Bool) (nB : Option ℕ)
    (stream : List Batch) (best : BestRecord) (r : ℚ × ℚ)
    (best' : BestRecord)
    (h : evaluate Split.Test (some e) verbose nB stream best =
      some (r, best')) :
    best.best_test_accuracy ≤ best'.best_test_accuracy ∧
    (best.best_test_accuracy ≤ r.2 → best' = ⟨r.2, some e⟩) ∧
    (¬ best.best_test_accuracy ≤ r.2 → best' = best) := by
  obtain ⟨-, -, hb⟩ := evaluate_eq_some _ _ _ _ _ _ _ _ h
  rw [updateBest_epoch_some] at hb
  by_cases hle : best.best_test_accuracy ≤ r.2
  · rw [if_pos hle] at hb
    subst hb
    exact ⟨hle, fun _ => rfl, fun hn => absurd hle hn⟩
  · rw [if_neg hle] at hb
    subst hb
    exact ⟨le_refl _, fun hc => absurd hc hle, fun _ => rfl⟩

/-- Witness for C3: a Test call at epoch 2 with accuracy 100 against a
stored best of 50 at epoch 1. -/
theorem evaluate_best_C3_witness :
    (⟨50, some 1⟩ : BestRecord).best_test_accuracy ≤
      (⟨100, some 2⟩ : BestRecord).best_test_accuracy ∧
    ((⟨50, some 1⟩ : BestRecord).best_test_accuracy ≤
        ((1, 100) : ℚ × ℚ).2 →
      (⟨100, some 2⟩ : BestRecord) = ⟨((1, 100) : ℚ × ℚ).2, some 2⟩) ∧
    (¬ (⟨50, some 1⟩ : BestRecord).best_test_accuracy ≤
        ((1, 100) : ℚ × ℚ).2 →
      (⟨100, some 2⟩ : BestRecord) = ⟨50, some 1⟩) :=
  evaluate_best_C3 2 false none [oneBatchFix] ⟨50, some 1⟩ (1, 100)
    ⟨100, some 2⟩ (by norm_num [evaluate, evalAccumOf, consumedBatches, capActive,
      consumedBatchesAux, processBatch, updateBest, pred, argmax, argmaxAux,
      oneBatchFix, exC, c8StreamFix, b1Fix, b2Fix, exW])

/-- C4 counterexample: a Test-stream call with verbose = false still
updates the best record when the accuracy ties or beats the stored
best, so the claim that BestRecord is unchanged whenever verbose is
false fails at this input. -/
theorem evaluate_verbose_C4_counterexample :
    evaluate Split.Test (some 2) false none [oneBatchFix] ⟨50, some 1⟩ =
      some ((1, 100), ⟨100, some 2⟩) ∧
    (⟨100, some 2⟩ : BestRecord) ≠ (⟨50, some 1⟩ : BestRecord) := by
  constructor
  · norm_num [evaluate, evalAccumOf, consumedBatches, capActive,
      consumedBatchesAux, processBatch, updateBest, pred, argmax, argmaxAux,
      oneBatchFix, exC, c8StreamFix, b1Fix, b2Fix, exW]
  · norm_num [evaluate, evalAccumOf, consumedBatches, capActive,
      consumedBatchesAux, processBatch, updateBest, pred, argmax, argmaxAux,
      oneBatchFix, exC, c8StreamFix, b1Fix, b2Fix, exW]

/-- C4 amended: verbose does not gate the BestRecord update — a
verbose = false call on any split updates the record by exactly the
same ties-or-better rule (src/train.py:211-216 sit outside the verbose
branch); verbose controls only reporting, logging and the epoch-None
reset of best_test_epoch. -/
theorem evaluate_verbose_C4_amended (split : Split) (epoch : Option ℕ)
    (nB : Option ℕ) (stream : List Batch) (best : BestRecord)
    (r : ℚ × ℚ) (best' : BestRecord)
    (h : evaluate split epoch false nB stream best = some (r, best')) :
    best' =
      if split = Split.Test ∧ best.best_test_accuracy ≤ r.2 then
        ⟨r.2, epoch⟩
      else best := by
  obtain ⟨-, -, hb⟩ := evaluate_eq_some _ _ _ _ _ _ _ _ h
  rw [updateBest_not_verbose] at hb
  exact hb

/-- Witness for the amended C4: a Val-split verbose = false call leaves
the record unchanged, matching the update rule. -/
theorem evaluate_verbose_C4_amended_witness :
    (⟨50, some 1⟩ : BestRecord) =
      if Split.Val = Split.Test ∧
          (⟨50, some 1⟩ : BestRecord).best_test_accuracy ≤
            ((1, 100) : ℚ × ℚ).2 then
        ⟨((1, 100) : ℚ × ℚ).2, some 2⟩
      else ⟨50, some 1⟩ :=
  evaluate_verbose_C4_amended Split.Val (some 2) none [oneBatchFix]
    ⟨50, some 1⟩ (1, 100) ⟨50, some 1⟩ (by
      norm_num [evaluate, evalAccumOf, consumedBatches, capActive,
        consumedBatchesAux, processBatch, updateBest, pred, argmax, argmaxAux,
        oneBatchFix, exC]
      decide)

/-- C5 counterexample: at epoch 3 the learning rate is still 0.1, not
0.01 — the driver steps the scheduler at the end of each epoch, so the
decay triggered by milestone 3 is first in effect during epoch 4. -/
theorem lr_schedule_C5_counterexample :
    lrAtEpoch [3, 6] (1 / 10) (1 / 10) 3 = 1 / 10 ∧
    ¬ lrAtEpoch [3, 6] (1 / 10) (1 / 10) 3 = 1 / 100 := by
  constructor
  · norm_num [lrAtEpoch, multiStepLR]
  · norm_num [lrAtEpoch, multiStepLR]

/-- C5 amended: with milestones [3, 6], decay factor 0.1 and initial
rate 0.1, stepped once at the end of each epoch, the learning rate in
effect during epochs 1..7 is [0.1, 0.1, 0.1, 0.01, 0.01, 0.01, 0.001] —
each milestone m takes effect from epoch m + 1 on. -/
theorem lr_schedule_C5_amended :
    (List.range' 1 7).map (lrAtEpoch [3, 6] (1 / 10) (1 / 10)) =
      [1 / 10, 1 / 10, 1 / 10, 1 / 100, 1 / 100, 1 / 100, 1 / 1000] := by
  norm_num [lrAtEpoch, multiStepLR, List.range']

/-- C6: an evaluation pass over an empty batch stream — and in general
any pass observing zero examples — fails at metric finalization with
the division by zero modelled as `none`, propagated to the caller
rather than returning 0. -/
theorem evaluate_empty_C6 (split : Split) (epoch : Option ℕ)
    (verbose : Bool) (nB : Option ℕ) (best : BestRecord) :
    evaluate split epoch verbose nB [] best = none ∧
    (∀ stream : List Batch, (evalAccumOf nB stream).nExamples = 0 →
      evaluate split epoch verbose nB stream best = none) := by
  constructor
  · have h0 : (evalAccumOf nB []).nExamples = 0 := by
      unfold evalAccumOf consumedBatches
      split <;> simp [consumedBatchesAux]
    simp [evaluate, h0]
  · intro stream h0
    simp [evaluate, h0]

/-- Witness for C6: a stream consisting of one empty batch observes
zero examples and the call returns `none`. -/
theorem evaluate_empty_C6_witness :
    evaluate Split.Test none true none [emptyBatchFix] ⟨0, some 0⟩ =
      none :=
  (evaluate_empty_C6 Split.Test none true none ⟨0, some 0⟩).2
    [emptyBatchFix] (by decide)

/-- C7: a successful generate_labels_for_ssl call returns indices and
labels that are the two parallel projections (dataset index, arg-max
prediction) of the consumed examples in batch order then within-batch
order; hence they have equal length, and when each dataset index occurs
at most once in the consumed batches, every returned index is
unique. -/
theorem generate_C7 (nB : Option ℕ) (stream : List Batch)
    (inds labels : List ℕ)
    (h : generate_labels_for_ssl nB stream = some (inds, labels)) :
    inds = (exsOf (consumedBatches nB stream)).map (·.index) ∧
    labels = (exsOf (consumedBatches nB stream)).map pred ∧
    inds.length = labels.length ∧
    (((exsOf (consumedBatches nB stream)).map (·.index)).Nodup →
      inds.Nodup) := by
  simp only [generate_labels_for_ssl, genFold_eq, List.nil_append] at h
  by_cases h0 :
      ((consumedBatches nB stream).foldl processBatch ⟨0, 0, 0⟩).nExamples = 0
  · rw [if_pos h0] at h
    exact absurd h (by simp)
  · rw [if_neg h0] at h
    simp only [Option.some.injEq, Prod.mk.injEq] at h
    obtain ⟨hi, hl⟩ := h
    subst hi
    subst hl
    exact ⟨rfl, rfl, by simp, fun hn => hn⟩

/-- Witness for C7 on a concrete 4-example batch. -/
theorem generate_C7_witness :
    [0, 1, 2, 3] = (exsOf (consumedBatches none [b1Fix])).map (·.index) ∧
    [0, 0, 0, 0] = (exsOf (consumedBatches none [b1Fix])).map pred ∧
    ([0, 1, 2, 3] : List ℕ).length = ([0, 0, 0, 0] : List ℕ).length ∧
    (((exsOf (consumedBatches none [b1Fix])).map (·.index)).Nodup →
      ([0, 1, 2, 3] : List ℕ).Nodup) :=
  generate_C7 none [b1Fix] [0, 1, 2, 3] [0, 0, 0, 0] (by decide)

/-- C8: on the 2-batch stream with 4/4 then 2/4 correct predictions,
the finalized metrics give example count 8 and accuracy
100 * 6 / 8 = 75, and the evaluate call returns accuracy 75. -/
theorem metrics_C8 :
    (evalAccumOf none c8StreamFix).nExamples = 8 ∧
    (evalAccumOf none c8StreamFix).correct = 6 ∧
    100 * ((evalAccumOf none c8StreamFix).correct : ℚ) /
        ((evalAccumOf none c8StreamFix).nExamples : ℚ) = 75 ∧
    evaluate Split.Test (some 1) false none c8StreamFix ⟨0, some 0⟩ =
      some ((1, 75), ⟨75, some 1⟩) := by
  refine ⟨by norm_num [evaluate, evalAccumOf, consumedBatches, capActive,
      consumedBatchesAux, processBatch, updateBest, pred, argmax, argmaxAux,
      oneBatchFix, exC, c8StreamFix, b1Fix, b2Fix, exW], by norm_num [evaluate, evalAccumOf, consumedBatches, capActive,
      consumedBatchesAux, processBatch, updateBest, pred, argmax, argmaxAux,
      oneBatchFix, exC, c8StreamFix, b1Fix, b2Fix, exW], by norm_num [evaluate, evalAccumOf, consumedBatches, capActive,
      consumedBatchesAux, processBatch, updateBest, pred, argmax, argmaxAux,
      oneBatchFix, exC, c8StreamFix, b1Fix, b2Fix, exW], by norm_num [evaluate, evalAccumOf, consumedBatches, capActive,
      consumedBatchesAux, processBatch, updateBest, pred, argmax, argmaxAux,
      oneBatchFix, exC, c8StreamFix, b1Fix, b2Fix, exW]⟩

/-- C9: in a run of `train_val_test`, a checkpoint is written at epoch
N exactly when N is a positive multiple of checkpoint_save_interval
within the epoch budget; with interval 5 and 12 epochs the checkpoints
are exactly epochs 5 and 10, none at 12. -/
theorem checkpoints_C9 (lrs : Bool) (interval epochs N : ℕ) :
    (N ∈ (train_val_test lrs interval epochs).checkpoints ↔
      1 ≤ N ∧ N ≤ epochs ∧ interval ∣ N) ∧
    (train_val_test lrs 5 12).checkpoints = [5, 10] := by
  constructor
  · unfold train_val_test
    rw [superRun_events]
    simp only [List.nil_append, List.mem_filter, List.mem_range'_1,
      decide_eq_true_eq]
    rw [Nat.dvd_iff_mod_eq_zero]
    omega
  · cases lrs <;> decide

/-- C10: a Test-stream evaluate call with verbose = true and no epoch
supplied (the evaluation-only entry point) always leaves
best_test_epoch = 0 after the call, regardless of the previously
recorded best epoch. -/
theorem evaluate_noepoch_C10 (nB : Option ℕ) (stream : List Batch)
    (best : BestRecord) (r : ℚ × ℚ) (best' : BestRecord)
    (h : evaluate Split.Test none true nB stream best = some (r, best')) :
    best'.best_test_epoch = some 0 := by
  obtain ⟨-, -, hb⟩ := evaluate_eq_some _ _ _ _ _ _ _ _ h
  rw [hb]
  exact updateBest_verbose_none _ _ _

/-- Witness for C10 with a previously recorded best epoch 77. -/
theorem evaluate_noepoch_C10_witness :
    (⟨100, some 0⟩ : BestRecord).best_test_epoch = some 0 :=
  evaluate_noepoch_C10 none [oneBatchFix] ⟨50, some 77⟩ (1, 100)
    ⟨100, some 0⟩ (by norm_num [evaluate, evalAccumOf, consumedBatches, capActive,
      consumedBatchesAux, processBatch, updateBest, pred, argmax, argmaxAux,
      oneBatchFix, exC, c8StreamFix, b1Fix, b2Fix, exW])

end TrainPy
